import Mathlib

/-!
Verification of the weather-tracking web application against its
natural-language specification.

This file shallowly embeds the parts of the TypeScript sources that the
claims are about:

* the local-storage cache hooks (useLocalStorage.ts:
  setValue, setValueWithExpiry, the checkExpiry callback of
  useLocalStorageWithExpiry);
* the temperature conversion (useTemperatureUnit.ts: convertTemperature);
* the city-list hook (useCityList.ts: addCity);
* the OpenWeather API client (openWeatherApi.ts: checkRateLimit,
  makeRequest retry loop, request coalescing of getCurrentWeather,
  transformCurrentWeather).

JavaScript numbers are modelled as rationals, machine timestamps as
naturals, thrown errors as string-carrying error results, and the
single-threaded event loop as sequences of atomic synchronous segments.
-/

namespace WeatherApp

/-! ## Local storage with expiry (useLocalStorage.ts) -/

/-- What sits in localStorage under a key after JSON serialisation.
`bare v` is the serialisation of the plain value, written by the inner
hook setter (useLocalStorage.setValue).  `wrapped v e` is the
serialisation of the wrapper object with fields value and expiry, written
first by setValueWithExpiry.  `undef` is the literal string "undefined"
that localStorage.setItem stores when handed
JSON.stringify(undefined). -/
inductive StoredPayload (α : Type) where
  | bare (v : α)
  | wrapped (v : α) (expiry : Nat)
  | undef
deriving DecidableEq, Repr

/-- The browser localStorage, one payload per string key. -/
abbrev Store (α : Type) := List (String × StoredPayload α)

/-- localStorage.getItem. -/
def storeGet (s : Store α) (k : String) : Option (StoredPayload α) :=
  match s.find? (fun e => e.1 == k) with
  | some e => some e.2
  | none => none

/-- localStorage.removeItem. -/
def storeRemove (s : Store α) (k : String) : Store α :=
  s.filter (fun e => !(e.1 == k))

/-- localStorage.setItem. -/
def setItem (s : Store α) (k : String) (p : StoredPayload α) : Store α :=
  (k, p) :: storeRemove s k

/-- useLocalStorage.setValue: store the new value in React state and
persist JSON.stringify(valueToStore) under the key.  The exposed hook
state is an `Option α`, `none` standing for the JavaScript undefined;
setValue called with undefined persists the payload `undef`.
Returns the new store and the new exposed state. -/
def setValue (s : Store α) (k : String) (v : Option α) : Store α × Option α :=
  match v with
  | some x => (setItem s k (.bare x), some x)
  | none => (setItem s k .undef, none)

/-- useLocalStorage.removeValue: reset the state to the initial value
and remove the key from storage. -/
def removeValue (s : Store α) (k : String) (initialValue : Option α) :
    Store α × Option α :=
  (storeRemove s k, initialValue)

/-- useLocalStorageWithExpiry.setValueWithExpiry with a configured ttl:
first setItem the wrapper object with expiry Date.now() + ttl minutes,
then call the inner setValue with the plain value (which performs its own
setItem of the bare value under the same key). -/
def setValueWithExpiry (s : Store α) (k : String) (v : α)
    (now ttlMinutes : Nat) : Store α × Option α :=
  let s1 := setItem s k (.wrapped v (now + ttlMinutes * 60 * 1000))
  setValue s1 k (some v)

/-- The checkExpiry callback run by useLocalStorageWithExpiry on mount and
then every minute.  It reads the item, destructures the parsed JSON into
value and expiry, purges the entry when Date.now() > expiry and otherwise
re-exposes the parsed value.  Destructuring a bare (non-wrapper) payload
yields undefined for both fields, and the comparison now > undefined is
false, so the else branch runs with an undefined value.  Parsing the
string "undefined" throws, and the catch handler calls removeValue. -/
def checkExpiry (s : Store α) (k : String) (initialValue : Option α)
    (now : Nat) (exposed : Option α) : Store α × Option α :=
  match storeGet s k with
  | none => (s, exposed)
  | some (.wrapped v e) =>
      if e < now then removeValue s k initialValue
      else setValue s k (some v)
  | some (.bare _) => setValue s k none
  | some .undef => removeValue s k initialValue

/-! ## Temperature conversion (useTemperatureUnit.ts) -/

/-- The TemperatureUnit union type of types/weather.ts. -/
inductive TemperatureUnit where
  | celsius
  | fahrenheit
deriving DecidableEq, Repr

/-- useTemperatureUnit.convertTemperature. -/
def convertTemperature (t : ℚ) (fromUnit toUnit : TemperatureUnit) : ℚ :=
  if fromUnit = toUnit then t
  else if fromUnit = .celsius ∧ toUnit = .fahrenheit then t * 9 / 5 + 32
  else if fromUnit = .fahrenheit ∧ toUnit = .celsius then (t - 32) * 5 / 9
  else t

/-! ## City list (useCityList.ts) -/

/-- The fields of the City record that addCity inspects or sets; the
remaining fields are carried along unchanged by the object spread. -/
structure City where
  id : String
  name : String
  country : String
  addedAt : Option Nat := none
deriving DecidableEq, Repr

/-- Substring check over the underlying character lists: does the second
list occur as a prefix of the first? -/
def listHasPre : List Char → List Char → Bool
  | [], _ => true
  | _ :: _, [] => false
  | c :: cs, d :: ds => c == d && listHasPre cs ds

/-- Does the first list occur contiguously anywhere in the second? -/
def listOccurs (sub : List Char) : List Char → Bool
  | [] => sub.isEmpty
  | d :: ds => listHasPre sub (d :: ds) || listOccurs sub ds

/-- String.prototype.includes of JavaScript: substring containment. -/
def msgContains (s sub : String) : Bool :=
  listOccurs sub.data s.data

/-- useCityList.addCity, acting on the stored city list.  Returns the
list after the call together with the message of the thrown error, if
any; the list is updated only on the success path, so a failed call
leaves it unchanged.  The three guards are, in source order: required
field validation (JavaScript falsiness of a string is emptiness),
duplicate detection by id or by the name and country pair, and the
maximum-size check.  On success the city is prepended with an addedAt
timestamp. -/
def addCity (cities : List City) (maxCities : Nat) (c : City) (now : Nat) :
    List City × Option String :=
  if c.id = "" ∨ c.name = "" ∨ c.country = "" then
    (cities, some "Invalid city data: missing required fields")
  else if (cities.find? fun x =>
      x.id == c.id || (x.name == c.name && x.country == c.country)).isSome then
    (cities, some (c.name ++ " is already in your city list"))
  else if maxCities ≤ cities.length then
    (cities, some ("Maximum " ++ toString maxCities ++ " cities allowed"))
  else
    ({ c with addedAt := some now } :: cities, none)

/-! ## Request coalescing (openWeatherApi.ts, getCurrentWeather) -/

/-- The request-coalescing state of OpenWeatherApiService: the in-flight
requestQueue map from cache key to the shared pending promise (promises
are numbered), a counter for allocating fresh promises, and the log of
network requests actually issued. -/
structure ClientState where
  requestQueue : List (String × Nat) := []
  nextPromiseId : Nat := 0
  networkRequests : List (Nat × String) := []
deriving DecidableEq, Repr

/-- The cache key built by getCurrentWeather from the coordinates. -/
def currentWeatherCacheKey (lat lon : ℚ) : String :=
  "current-" ++ toString lat ++ "-" ++ toString lon

/-- The synchronous prefix of one getCurrentWeather call: if the key is
already in the requestQueue return the existing promise, otherwise start
the network request, register the new promise in the queue and return it.
On the single-threaded event loop this segment runs atomically. -/
def getCurrentWeatherStart (s : ClientState) (key : String) :
    Nat × ClientState :=
  match s.requestQueue.lookup key with
  | some pid => (pid, s)
  | none =>
      (s.nextPromiseId,
        { requestQueue := (key, s.nextPromiseId) :: s.requestQueue
          nextPromiseId := s.nextPromiseId + 1
          networkRequests := s.networkRequests ++ [(s.nextPromiseId, key)] })

/-- The finally block of the shared request: requestQueue.delete runs
when the request settles. -/
def completeRequest (s : ClientState) (key : String) : ClientState :=
  { s with requestQueue := s.requestQueue.filter (fun e => !(e.1 == key)) }

/-- n calls to getCurrentWeather with the same key, all issued before the
shared request resolves (no completion in between). -/
def startN (key : String) : Nat → ClientState → List Nat × ClientState
  | 0, s => ([], s)
  | n + 1, s =>
      let r1 := getCurrentWeatherStart s key
      let r2 := startN key n r1.2
      (r1.1 :: r2.1, r2.2)

/-! ## Rate limiting (openWeatherApi.ts, checkRateLimit) -/

/-- The rateLimit configuration: requests per window, window in
milliseconds. -/
structure RateLimitConfig where
  requests : Nat
  window : Nat
deriving DecidableEq, Repr

/-- The mutable counters of the service: requestCount and
lastRequestTime (the start of the current rate window). -/
structure RateState where
  requestCount : Nat := 0
  lastRequestTime : Nat := 0
deriving DecidableEq, Repr

/-- One checkRateLimit call at time now, modelled as an atomic call of
the sequential event-loop execution.  If the window has elapsed the
counters reset; if the count has reached the limit the caller awaits the
remainder of the window (its admission time is Date.now() after that
wait) and the counters reset; finally the count increments.  Returns the
admission time of the call and the state it leaves behind. -/
def checkRateLimit (cfg : RateLimitConfig) (s : RateState) (now : Nat) :
    Nat × RateState :=
  let s1 : RateState :=
    if cfg.window < now - s.lastRequestTime then ⟨0, now⟩ else s
  if cfg.requests ≤ s1.requestCount then
    let admitTime := now + (cfg.window - (now - s1.lastRequestTime))
    (admitTime, ⟨1, admitTime⟩)
  else
    (now, ⟨s1.requestCount + 1, s1.lastRequestTime⟩)

/-- A sequence of non-overlapping checkRateLimit calls at the given
arrival times; each admission is recorded with the window start
(lastRequestTime) it was counted against. -/
def runRateLimiter (cfg : RateLimitConfig) :
    RateState → List Nat → List (Nat × Nat)
  | _, [] => []
  | s, t :: ts =>
      let r := checkRateLimit cfg s t
      (r.1, r.2.lastRequestTime) :: runRateLimiter cfg r.2 ts

/-- Wellformedness of an arrival sequence for the sequential model: each
call arrives no earlier than the window start recorded by the state it
sees (time is monotone across the non-overlapping calls). -/
def seqOK (cfg : RateLimitConfig) : RateState → List Nat → Bool
  | _, [] => true
  | s, t :: ts =>
      decide (s.lastRequestTime ≤ t) && seqOK cfg (checkRateLimit cfg s t).2 ts

/-- Number of admissions in a run that were counted against the window
starting at w. -/
def countWindow (w : Nat) (l : List (Nat × Nat)) : Nat :=
  (l.filter (fun p => p.2 == w)).length

/-! ## HTTP retry loop (openWeatherApi.ts, makeRequest) -/

/-- The observable outcome of one fetch attempt: a parsed success body, a
non-ok HTTP response (status and message text), or a rejected fetch
(network failure or abort). -/
inductive FetchOutcome (α : Type) where
  | success (v : α)
  | httpError (status : Nat) (statusText : String)
  | netError (msg : String)
deriving DecidableEq, Repr

/-- The message of the Error thrown for a non-ok response. -/
def httpErrorMessage (status : Nat) (statusText : String) : String :=
  "OpenWeather API error " ++ toString status ++ ": " ++ statusText

/-- The message of the caught error of a failed attempt. -/
def errorMessage : FetchOutcome α → String
  | .success _ => ""
  | .httpError st txt => httpErrorMessage st txt
  | .netError m => m

/-- Whether the attempt entered the catch block. -/
def isFailure : FetchOutcome α → Bool
  | .success _ => false
  | .httpError _ _ => true
  | .netError _ => true

/-- error.message.includes("4"): the retry classifier of makeRequest. -/
def msgHasFour (msg : String) : Bool :=
  msg.data.contains '4'

/-- The settlement of the makeRequest promise. -/
inductive RequestResult (α : Type) where
  | ok (v : α)
  | error (msg : String)
deriving DecidableEq, Repr

/-- The retry loop of makeRequest.  sched gives the outcome of each
attempt (1-indexed), aborted whether the AbortSignal is observed aborted
when that attempt fails.  Returns the result, the number of attempts
executed, and the list of backoff waits performed (delay * attempt after
failed attempt number attempt).  In source order inside the catch block:
the abort check, the includes("4") check, and the wait that is skipped on
the last attempt; an exhausted loop throws the last error. -/
def makeRequestAux (sched : Nat → FetchOutcome α) (aborted : Nat → Bool)
    (delay : Nat) :
    String → Nat → Nat → RequestResult α × Nat × List Nat
  | lastMsg, _, 0 => (.error lastMsg, 0, [])
  | _, attempt, r + 1 =>
      match sched attempt with
      | .success v => (.ok v, 1, [])
      | o =>
          let msg := errorMessage o
          if aborted attempt then (.error "Request cancelled", 1, [])
          else if msgHasFour msg then (.error msg, 1, [])
          else if r = 0 then (.error msg, 1, [])
          else
            let rest := makeRequestAux sched aborted delay msg (attempt + 1) r
            (rest.1, rest.2.1 + 1, delay * attempt :: rest.2.2)

/-- makeRequest with the configured attempts and delay (the rate-limit
gate is modelled separately by checkRateLimit). -/
def makeRequest (sched : Nat → FetchOutcome α) (aborted : Nat → Bool)
    (attempts delay : Nat) : RequestResult α × Nat × List Nat :=
  makeRequestAux sched aborted delay "" 1 attempts

/-- The cancellation filter of the consuming hook (useWeatherData):
an error is treated as a cancellation exactly when its message is the
string "Request cancelled". -/
def isCancellation (msg : String) : Bool :=
  msg == "Request cancelled"

/-! ## Response transformation (openWeatherApi.ts, transformCurrentWeather) -/

/-- One element of the weather array of the provider response. -/
structure WeatherInfo where
  main : String
  description : String
  icon : String
deriving DecidableEq, Repr

/-- The main block of the provider response (fields the transformer
reads; feels_like is guarded with an undefined check). -/
structure MainInfo where
  temp : ℚ
  feels_like : Option ℚ
  pressure : ℚ
  humidity : ℚ
deriving DecidableEq, Repr

/-- The wind block; deg and gust are guarded with undefined checks. -/
structure WindInfo where
  speed : ℚ
  deg : Option ℚ
  gust : Option ℚ
deriving DecidableEq, Repr

/-- The provider current-weather response, restricted to the fields
transformCurrentWeather reads.  cloudsAll stands for the optional chain
clouds?.all, sysSunrise and sysSunset for sys?.sunrise and sys?.sunset,
rain1h and snow1h for the optional chains rain?.["1h"] and
snow?.["1h"]. -/
structure CurrentResponse where
  weather : List WeatherInfo
  main : MainInfo
  wind : WindInfo
  visibility : Option ℚ
  cloudsAll : Option ℚ
  rain1h : Option ℚ
  snow1h : Option ℚ
  dt : ℚ
  sysSunrise : Option ℚ
  sysSunset : Option ℚ
deriving DecidableEq, Repr

/-- The normalized WeatherData record of types/weather.ts; optional
fields that the transformer may leave unset are Options. -/
structure WeatherData where
  dt : ℚ
  temperature : ℚ
  feelsLike : Option ℚ := none
  condition : String
  icon : Option String := none
  humidity : ℚ
  pressure : ℚ
  windSpeed : ℚ
  windDirection : Option ℚ := none
  windGust : Option ℚ := none
  visibility : Option ℚ := none
  uvIndex : Option ℚ := none
  cloudCover : Option ℚ := none
  dewPoint : Option ℚ := none
  precipitation : Option ℚ := none
  sunrise : Option ℚ := none
  sunset : Option ℚ := none
deriving DecidableEq, Repr

/-- transformCurrentWeather: throws on a missing weather array element,
otherwise builds the result with the required fields and adds each
optional field under its source guard: an undefined check for feels_like,
wind.deg, wind.gust, visibility (scaled to km), clouds?.all,
sys?.sunrise, sys?.sunset; a truthiness check for icon; and for
precipitation the sum (rain?.["1h"] || 0) + (snow?.["1h"] || 0) added
only when strictly positive. -/
def transformCurrentWeather (d : CurrentResponse) :
    Except String WeatherData :=
  match d.weather.head? with
  | none => .error "Invalid weather data: missing weather information"
  | some w =>
      .ok { dt := d.dt
            temperature := d.main.temp
            condition := w.description
            humidity := d.main.humidity
            pressure := d.main.pressure
            windSpeed := d.wind.speed
            feelsLike := d.main.feels_like
            icon := if w.icon = "" then none else some w.icon
            windDirection := d.wind.deg
            windGust := d.wind.gust
            visibility := d.visibility.map (fun v => v / 1000)
            cloudCover := d.cloudsAll
            sunrise := d.sysSunrise
            sunset := d.sysSunset
            precipitation :=
              if 0 < d.rain1h.getD 0 + d.snow1h.getD 0 then
                some (d.rain1h.getD 0 + d.snow1h.getD 0)
              else none }



/-! ## addCity: concrete cities used by counterexamples and witnesses -/

def cityParis : City := { id := "paris-1", name := "Paris", country := "FR" }

def cityBerlin : City := { id := "berlin-1", name := "Berlin", country := "DE" }

def cityRome : City := { id := "rome-1", name := "Roma", country := "IT" }

def cityBlankName : City := { id := "paris-1", name := "", country := "FR" }

def cityBlankRome : City := { id := "rome-1", name := "", country := "IT" }

def cityBlankId : City := { id := "", name := "Paris", country := "FR" }

def cityParisTwo : City := { id := "paris-2", name := "Paris", country := "FR" }

/-! ## Concrete provider responses used by counterexamples and witnesses -/

def sampleWeatherInfo : WeatherInfo :=
  { main := "Clouds", description := "scattered clouds", icon := "03d" }

def respRainZero : CurrentResponse :=
  { weather := [sampleWeatherInfo]
    main := { temp := 20, feels_like := some 19, pressure := 1013, humidity := 60 }
    wind := { speed := 3, deg := some 200, gust := none }
    visibility := some 10000
    cloudsAll := some 40
    rain1h := some 0
    snow1h := none
    dt := 1700000000
    sysSunrise := none
    sysSunset := none }

def respNoRain : CurrentResponse := { respRainZero with rain1h := none }

/-! ## Helper lemmas -/

theorem listHasPre_append (l rest : List Char) :
    listHasPre l (l ++ rest) = true := by
  induction l with
  | nil => simp [listHasPre]
  | cons c cs ih => simp [listHasPre, ih]

theorem listOccurs_append (sub pre post : List Char) :
    listOccurs sub (pre ++ (sub ++ post)) = true := by
  induction pre with
  | nil =>
      cases sub with
      | nil =>
          cases post with
          | nil => simp [listOccurs]
          | cons d ds => simp [listOccurs, listHasPre]
      | cons c cs =>
          simp only [List.nil_append, List.cons_append, listOccurs,
            Bool.or_eq_true]
          exact Or.inl (listHasPre_append (c :: cs) post)
  | cons p ps ih =>
      simp only [List.cons_append, listOccurs, Bool.or_eq_true]
      exact Or.inr ih

theorem msgContains_dup (n : String) :
    msgContains (n ++ " is already in your city list")
      "already in your city list" = true := by
  unfold msgContains
  rw [String.data_append]
  have h : (" is already in your city list" : String).data
      = (" is " : String).data ++ ("already in your city list" : String).data := rfl
  rw [h, ← List.append_assoc]
  exact List.append_nil ("already in your city list" : String).data ▸
    listOccurs_append ("already in your city list" : String).data
      (n.data ++ (" is " : String).data) []

/-- C1: the cache hook with a ttl.  The claim of the specification is
that the stored payload is the value and expiry pair and that a read
after the ttl returns absent and removes the key.  The code first stores
the wrapper and then immediately overwrites it through the inner
setValue, so the persisted payload is the bare value; the expiry check
then destructures undefined fields, never purges, and clobbers the
exposed value. -/
theorem cache_expiry_write_clobbered :
    storeGet (setValueWithExpiry ([] : Store ℚ) "weather_123" 22 0 10).1
        "weather_123" = some (.bare 22)
    ∧ storeGet (setValueWithExpiry ([] : Store ℚ) "weather_123" 22 0 10).1
        "weather_123" ≠ some (.wrapped 22 (0 + 10 * 60 * 1000))
    ∧ (checkExpiry (setValueWithExpiry ([] : Store ℚ) "weather_123" 22 0 10).1
        "weather_123" none (11 * 60 * 1000) (some 22)).2 = none
    ∧ storeGet (checkExpiry
        (setValueWithExpiry ([] : Store ℚ) "weather_123" 22 0 10).1
        "weather_123" none (11 * 60 * 1000) (some 22)).1 "weather_123"
        = some .undef
    ∧ (checkExpiry (setValueWithExpiry ([] : Store ℚ) "weather_123" 22 0 10).1
        "weather_123" none (5 * 60 * 1000) (some 22)).2 ≠ some 22 := by
  refine ⟨rfl, ?_, rfl, rfl, ?_⟩ <;> decide

/-- C10: conversion with equal units is the identity, and the
celsius-to-fahrenheit round trip is exact over the rationals. -/
theorem convertTemperature_roundtrip :
    (∀ (t : ℚ) (u : TemperatureUnit), convertTemperature t u u = t)
    ∧ ∀ t : ℚ, convertTemperature
        (convertTemperature t .celsius .fahrenheit) .fahrenheit .celsius = t := by
  constructor
  · intro t u
    cases u <;> rfl
  · intro t
    show (t * 9 / 5 + 32 - 32) * 5 / 9 = t
    ring


/-- C5 counterexample: a city whose id is already in the list but whose
name is the empty string fails the required-field validation first, so
the call rejects with the invalid-data message, not the duplicate
message the claim requires. -/
theorem addCity_duplicate_claim_cex :
    cityParis ∈ [cityParis]
    ∧ cityBlankName.id = cityParis.id
    ∧ addCity [cityParis] 20 cityBlankName 5
        = ([cityParis], some "Invalid city data: missing required fields")
    ∧ msgContains "Invalid city data: missing required fields"
        "already in your city list" = false := by
  decide

/-- C5 amended: for a city with nonempty id, name and country whose id is
already present, addCity leaves the list unchanged and rejects with the
message that contains the duplicate phrase. -/
theorem addCity_duplicate_id (cities : List City) (maxCities : Nat) (c : City)
    (now : Nat) (hid : c.id ≠ "") (hname : c.name ≠ "")
    (hcountry : c.country ≠ "") (x : City) (hx : x ∈ cities)
    (hxid : x.id = c.id) :
    addCity cities maxCities c now
      = (cities, some (c.name ++ " is already in your city list"))
    ∧ msgContains (c.name ++ " is already in your city list")
        "already in your city list" = true := by
  refine ⟨?_, msgContains_dup c.name⟩
  have hfind : (cities.find? fun y =>
      y.id == c.id || (y.name == c.name && y.country == c.country)).isSome := by
    rw [List.find?_isSome]
    exact ⟨x, hx, by simp [hxid]⟩
  simp [addCity, hid, hname, hcountry, hfind]

theorem addCity_duplicate_id_witness :
    addCity [cityParis] 20 cityParis 7
      = ([cityParis], some (cityParis.name ++ " is already in your city list"))
    ∧ msgContains (cityParis.name ++ " is already in your city list")
        "already in your city list" = true :=
  addCity_duplicate_id [cityParis] 20 cityParis 7 (by decide) (by decide)
    (by decide) cityParis (by decide) rfl

/-- C6 counterexample: with the list at its configured maximum, adding a
fresh non-duplicate city whose name is empty rejects with the
invalid-data message, not the maximum-reached message the claim
requires. -/
theorem addCity_max_claim_cex :
    ([cityParis, cityBerlin] : List City).length = 2
    ∧ (∀ x ∈ ([cityParis, cityBerlin] : List City),
        ¬(x.id = cityBlankRome.id
          ∨ (x.name = cityBlankRome.name ∧ x.country = cityBlankRome.country)))
    ∧ addCity [cityParis, cityBerlin] 2 cityBlankRome 0
        = ([cityParis, cityBerlin],
           some "Invalid city data: missing required fields")
    ∧ "Invalid city data: missing required fields"
        ≠ "Maximum 2 cities allowed" := by
  decide

/-- C6 amended: when the list has reached the configured maximum, adding
a non-duplicate city with nonempty id, name and country rejects with the
maximum-reached message and leaves the list unchanged. -/
theorem addCity_max_reached (cities : List City) (maxCities : Nat) (c : City)
    (now : Nat) (hid : c.id ≠ "") (hname : c.name ≠ "")
    (hcountry : c.country ≠ "")
    (hnodup : ∀ x ∈ cities, x.id ≠ c.id ∧ (x.name ≠ c.name ∨ x.country ≠ c.country))
    (hfull : maxCities ≤ cities.length) :
    addCity cities maxCities c now
      = (cities, some ("Maximum " ++ toString maxCities ++ " cities allowed")) := by
  have hfind : (cities.find? fun y =>
      y.id == c.id || (y.name == c.name && y.country == c.country)) = none := by
    rw [List.find?_eq_none]
    intro x hx
    obtain ⟨h1, h2⟩ := hnodup x hx
    simp only [Bool.or_eq_true, Bool.and_eq_true, beq_iff_eq, not_or]
    refine ⟨h1, fun hand => ?_⟩
    rcases h2 with h2 | h2
    · exact h2 hand.1
    · exact h2 hand.2
  simp [addCity, hid, hname, hcountry, hfind, hfull]

theorem addCity_max_reached_witness :
    addCity [cityParis, cityBerlin] 2 cityRome 9
      = ([cityParis, cityBerlin],
         some ("Maximum " ++ toString 2 ++ " cities allowed")) :=
  addCity_max_reached [cityParis, cityBerlin] 2 cityRome 9 (by decide)
    (by decide) (by decide) (by decide) (by decide)

/-- C9 counterexample: a city whose name and country both equal those of
a listed city and whose id differs is rejected, but when its id is the
empty string the rejection is the invalid-data message, not the
duplicate message the claim requires. -/
theorem addCity_pair_claim_cex :
    cityBlankId.name = cityParis.name
    ∧ cityBlankId.country = cityParis.country
    ∧ cityBlankId.id ≠ cityParis.id
    ∧ addCity [cityParis] 20 cityBlankId 0
        = ([cityParis], some "Invalid city data: missing required fields")
    ∧ msgContains "Invalid city data: missing required fields"
        "already in your city list" = false := by
  decide

/-- C9 amended: for a city with nonempty id, name and country, a listed
city with the same name and country but a different id triggers the same
duplicate rejection, so duplicate detection is by id or by the name and
country pair. -/
theorem addCity_duplicate_pair (cities : List City) (maxCities : Nat) (c : City)
    (now : Nat) (hid : c.id ≠ "") (hname : c.name ≠ "")
    (hcountry : c.country ≠ "") (x : City) (hx : x ∈ cities)
    (_hxid : x.id ≠ c.id) (hxn : x.name = c.name) (hxc : x.country = c.country) :
    addCity cities maxCities c now
      = (cities, some (c.name ++ " is already in your city list"))
    ∧ msgContains (c.name ++ " is already in your city list")
        "already in your city list" = true := by
  refine ⟨?_, msgContains_dup c.name⟩
  have hfind : (cities.find? fun y =>
      y.id == c.id || (y.name == c.name && y.country == c.country)).isSome := by
    rw [List.find?_isSome]
    exact ⟨x, hx, by simp [hxn, hxc]⟩
  simp [addCity, hid, hname, hcountry, hfind]

theorem addCity_duplicate_pair_witness :
    addCity [cityParis] 20 cityParisTwo 3
      = ([cityParis], some (cityParisTwo.name ++ " is already in your city list"))
    ∧ msgContains (cityParisTwo.name ++ " is already in your city list")
        "already in your city list" = true :=
  addCity_duplicate_pair [cityParis] 20 cityParisTwo 3 (by decide) (by decide)
    (by decide) cityParis (by decide) (by decide) rfl rfl


/-! ## Request coalescing -/

theorem startN_inFlight (key : String) (pid : Nat) :
    ∀ (n : Nat) (s : ClientState), s.requestQueue.lookup key = some pid →
      startN key n s = (List.replicate n pid, s) := by
  intro n
  induction n with
  | zero => intro s _; rfl
  | succ m ih =>
      intro s h
      simp [startN, getCurrentWeatherStart, h, ih s h, List.replicate]

theorem lookup_filter_ne (key : String) (q : List (String × Nat)) :
    (q.filter (fun e => !(e.1 == key))).lookup key = none := by
  induction q with
  | nil => rfl
  | cons a t ih =>
      obtain ⟨k, v⟩ := a
      by_cases h : k == key
      · simp [List.filter, h, ih]
      · have hne : k ≠ key := by simpa using h
        have hk : (key == k) = false := beq_eq_false_iff_ne.mpr (Ne.symm hne)
        simp [List.filter, h, List.lookup, hk, ih]

/-- C2: n calls to getCurrentWeather with the same cache key, all issued
while the shared request is pending, produce exactly one network request,
hand every caller the same promise (hence the same resolved value), and
the in-flight entry is removed when the shared request completes. -/
theorem getCurrentWeather_coalesces (s : ClientState) (key : String) (n : Nat)
    (hfree : s.requestQueue.lookup key = none) (hn : 1 ≤ n) :
    (startN key n s).2.networkRequests
        = s.networkRequests ++ [(s.nextPromiseId, key)]
    ∧ (startN key n s).1 = List.replicate n s.nextPromiseId
    ∧ (∀ (α : Type) (resolve : Nat → α),
        (startN key n s).1.map resolve
          = List.replicate n (resolve s.nextPromiseId))
    ∧ (startN key n s).2.requestQueue.lookup key = some s.nextPromiseId
    ∧ (completeRequest (startN key n s).2 key).requestQueue.lookup key = none := by
  obtain ⟨m, rfl⟩ : ∃ m, n = m + 1 := ⟨n - 1, by omega⟩
  set s1 : ClientState :=
    { requestQueue := (key, s.nextPromiseId) :: s.requestQueue
      nextPromiseId := s.nextPromiseId + 1
      networkRequests := s.networkRequests ++ [(s.nextPromiseId, key)] } with hs1
  have hstart : getCurrentWeatherStart s key = (s.nextPromiseId, s1) := by
    simp [getCurrentWeatherStart, hfree, hs1]
  have hq : s1.requestQueue.lookup key = some s.nextPromiseId := by
    simp [hs1, List.lookup]
  have hrun : startN key (m + 1) s
      = (s.nextPromiseId :: List.replicate m s.nextPromiseId, s1) := by
    simp [startN, hstart, startN_inFlight key s.nextPromiseId m s1 hq]
  refine ⟨?_, ?_, ?_, ?_, ?_⟩
  · rw [hrun]
  · rw [hrun, List.replicate_succ]
  · intro α resolve
    rw [hrun, List.replicate_succ]
    simp
  · rw [hrun]
    exact hq
  · rw [hrun]
    exact lookup_filter_ne key s1.requestQueue

theorem getCurrentWeather_coalesces_witness :
    (startN (currentWeatherCacheKey 10 20) 2 {}).2.networkRequests
        = [] ++ [(0, currentWeatherCacheKey 10 20)]
    ∧ (startN (currentWeatherCacheKey 10 20) 2 {}).1 = List.replicate 2 0
    ∧ (∀ (α : Type) (resolve : Nat → α),
        (startN (currentWeatherCacheKey 10 20) 2 ({} : ClientState)).1.map resolve
          = List.replicate 2 (resolve 0))
    ∧ (startN (currentWeatherCacheKey 10 20) 2 {}).2.requestQueue.lookup
        (currentWeatherCacheKey 10 20) = some 0
    ∧ (completeRequest (startN (currentWeatherCacheKey 10 20) 2 {}).2
        (currentWeatherCacheKey 10 20)).requestQueue.lookup
        (currentWeatherCacheKey 10 20) = none :=
  getCurrentWeather_coalesces {} (currentWeatherCacheKey 10 20) 2 rfl
    (by decide)

/-! ## Rate limiter -/

theorem checkRateLimit_eq_elapsed (cfg : RateLimitConfig) (s : RateState)
    (now : Nat) (hreq : 1 ≤ cfg.requests)
    (hA : cfg.window < now - s.lastRequestTime) :
    checkRateLimit cfg s now = (now, ⟨1, now⟩) := by
  have h0 : ¬(cfg.requests ≤ (0 : Nat)) := by omega
  simp [checkRateLimit, hA, h0]

theorem checkRateLimit_eq_full (cfg : RateLimitConfig) (s : RateState)
    (now : Nat) (hA : ¬ cfg.window < now - s.lastRequestTime)
    (hfull : cfg.requests ≤ s.requestCount) (hts : s.lastRequestTime ≤ now) :
    checkRateLimit cfg s now
      = (s.lastRequestTime + cfg.window,
         ⟨1, s.lastRequestTime + cfg.window⟩) := by
  have hadm : now + (cfg.window - (now - s.lastRequestTime))
      = s.lastRequestTime + cfg.window := by omega
  simp [checkRateLimit, hA, hfull, hadm]

theorem checkRateLimit_eq_free (cfg : RateLimitConfig) (s : RateState)
    (now : Nat) (hA : ¬ cfg.window < now - s.lastRequestTime)
    (hfree : ¬ cfg.requests ≤ s.requestCount) :
    checkRateLimit cfg s now
      = (now, ⟨s.requestCount + 1, s.lastRequestTime⟩) := by
  simp [checkRateLimit, hA, hfree]

theorem runRateLimiter_cons (cfg : RateLimitConfig) (s : RateState)
    (t : Nat) (ts : List Nat) :
    runRateLimiter cfg s (t :: ts)
      = ((checkRateLimit cfg s t).1, (checkRateLimit cfg s t).2.lastRequestTime)
        :: runRateLimiter cfg (checkRateLimit cfg s t).2 ts := rfl

theorem runRateLimiter_length (cfg : RateLimitConfig) :
    ∀ (ts : List Nat) (s : RateState),
      (runRateLimiter cfg s ts).length = ts.length := by
  intro ts
  induction ts with
  | nil => intro s; rfl
  | cons t ts ih => intro s; rw [runRateLimiter_cons]; simp [ih]

theorem countWindow_cons (w : Nat) (p : Nat × Nat) (l : List (Nat × Nat)) :
    countWindow w (p :: l)
      = (if p.2 = w then 1 else 0) + countWindow w l := by
  by_cases h : p.2 = w
  · simp [countWindow, List.filter_cons, h, Nat.add_comm]
  · simp [countWindow, List.filter_cons, h]

theorem countWindow_eq_zero_of_lt (w : Nat) (l : List (Nat × Nat)) (b : Nat)
    (hb : ∀ p ∈ l, b ≤ p.2) (hw : w < b) : countWindow w l = 0 := by
  induction l with
  | nil => rfl
  | cons p l ih =>
      rw [countWindow_cons]
      have h1 : p.2 ≠ w := by
        have := hb p (by simp)
        omega
      have h2 : countWindow w l = 0 := ih (fun q hq => hb q (by simp [hq]))
      simp [h1, h2]

theorem runRateLimiter_tags_ge (cfg : RateLimitConfig)
    (hreq : 1 ≤ cfg.requests) :
    ∀ (ts : List Nat) (s : RateState), seqOK cfg s ts = true →
      ∀ p ∈ runRateLimiter cfg s ts, s.lastRequestTime ≤ p.2 := by
  intro ts
  induction ts with
  | nil => intro s _ p hp; simp [runRateLimiter] at hp
  | cons t ts ih =>
      intro s hs p hp
      simp only [seqOK, Bool.and_eq_true, decide_eq_true_eq] at hs
      obtain ⟨hst, hs2⟩ := hs
      have hlast : s.lastRequestTime
          ≤ (checkRateLimit cfg s t).2.lastRequestTime := by
        by_cases hA : cfg.window < t - s.lastRequestTime
        · rw [checkRateLimit_eq_elapsed cfg s t hreq hA]
          exact hst
        · by_cases hF : cfg.requests ≤ s.requestCount
          · rw [checkRateLimit_eq_full cfg s t hA hF hst]
            dsimp only
            omega
          · rw [checkRateLimit_eq_free cfg s t hA hF]
      rw [runRateLimiter_cons] at hp
      rcases List.mem_cons.mp hp with hp | hp
      · rw [hp]
        exact hlast
      · exact Nat.le_trans hlast (ih _ hs2 p hp)

theorem runRateLimiter_window_bound (cfg : RateLimitConfig)
    (hreq : 1 ≤ cfg.requests) (hwin : 1 ≤ cfg.window) :
    ∀ (ts : List Nat) (s : RateState), s.requestCount ≤ cfg.requests →
      seqOK cfg s ts = true → ∀ w,
      countWindow w (runRateLimiter cfg s ts)
        ≤ if w = s.lastRequestTime then cfg.requests - s.requestCount
          else cfg.requests := by
  intro ts
  induction ts with
  | nil =>
      intro s hc hs w
      have h0 : countWindow w (runRateLimiter cfg s []) = 0 := rfl
      rw [h0]
      split <;> omega
  | cons t ts ih =>
      intro s hc hs w
      simp only [seqOK, Bool.and_eq_true, decide_eq_true_eq] at hs
      obtain ⟨hst, hs2⟩ := hs
      rw [runRateLimiter_cons, countWindow_cons]
      by_cases hA : cfg.window < t - s.lastRequestTime
      · -- window elapsed: the call opens the fresh window starting at t
        have heq := checkRateLimit_eq_elapsed cfg s t hreq hA
        have h2 : (checkRateLimit cfg s t).2 = ⟨1, t⟩ := by rw [heq]
        rw [h2] at hs2 ⊢
        dsimp only
        have hbound := ih ⟨1, t⟩ (by dsimp only; omega) hs2 w
        dsimp only at hbound
        have hlt : s.lastRequestTime < t := by omega
        by_cases hw : w = t
        · subst hw
          rw [if_pos rfl]
          rw [if_pos rfl] at hbound
          rw [if_neg (show ¬ w = s.lastRequestTime by omega)]
          omega
        · rw [if_neg (fun h => hw h.symm)]
          rw [if_neg hw] at hbound
          by_cases hws : w = s.lastRequestTime
          · have hzero : countWindow w (runRateLimiter cfg ⟨1, t⟩ ts) = 0 := by
              refine countWindow_eq_zero_of_lt w _ t ?_ (by omega)
              intro p hp
              have := runRateLimiter_tags_ge cfg hreq ts ⟨1, t⟩ hs2 p hp
              simpa using this
            rw [if_pos hws, hzero]
            omega
          · rw [if_neg hws]
            omega
      · by_cases hF : cfg.requests ≤ s.requestCount
        · -- at the limit: the call is delayed into the next window
          have heq := checkRateLimit_eq_full cfg s t hA hF hst
          have h2 : (checkRateLimit cfg s t).2
              = ⟨1, s.lastRequestTime + cfg.window⟩ := by rw [heq]
          rw [h2] at hs2 ⊢
          dsimp only
          have hbound := ih ⟨1, s.lastRequestTime + cfg.window⟩
            (by dsimp only; omega) hs2 w
          dsimp only at hbound
          by_cases hw : w = s.lastRequestTime + cfg.window
          · subst hw
            rw [if_pos rfl]
            rw [if_pos rfl] at hbound
            rw [if_neg (show ¬ s.lastRequestTime + cfg.window = s.lastRequestTime by omega)]
            omega
          · rw [if_neg (fun h => hw h.symm)]
            rw [if_neg hw] at hbound
            by_cases hws : w = s.lastRequestTime
            · have hzero : countWindow w (runRateLimiter cfg
                  ⟨1, s.lastRequestTime + cfg.window⟩ ts) = 0 := by
                refine countWindow_eq_zero_of_lt w _
                  (s.lastRequestTime + cfg.window) ?_ (by omega)
                intro p hp
                have := runRateLimiter_tags_ge cfg hreq ts
                  ⟨1, s.lastRequestTime + cfg.window⟩ hs2 p hp
                simpa using this
              rw [if_pos hws, hzero]
              omega
            · rw [if_neg hws]
              omega
        · -- room left in the current window
          have heq := checkRateLimit_eq_free cfg s t hA hF
          have h2 : (checkRateLimit cfg s t).2
              = ⟨s.requestCount + 1, s.lastRequestTime⟩ := by rw [heq]
          rw [h2] at hs2 ⊢
          dsimp only
          have hbound := ih ⟨s.requestCount + 1, s.lastRequestTime⟩
            (by dsimp only; omega) hs2 w
          dsimp only at hbound
          by_cases hws : w = s.lastRequestTime
          · subst hws
            rw [if_pos rfl]
            rw [if_pos rfl] at hbound
            rw [if_pos rfl]
            omega
          · rw [if_neg (fun h => hws h.symm)]
            rw [if_neg hws] at hbound
            rw [if_neg hws]
            omega

/-- C7: the request governor.  An elapsed window resets the counter and
window start; a caller that finds the counter at the limit is delayed by
the remainder of the window and then admitted into a fresh window, never
rejected; every call of a run is admitted; and no window start has more
than the configured limit of admissions counted against it. -/
theorem checkRateLimit_governor (cfg : RateLimitConfig) (s : RateState)
    (now : Nat) (ts : List Nat)
    (hreq : 1 ≤ cfg.requests) (hwin : 1 ≤ cfg.window)
    (hnow : s.lastRequestTime ≤ now) (hcount : s.requestCount ≤ cfg.requests)
    (hseq : seqOK cfg s ts = true) :
    (cfg.window < now - s.lastRequestTime →
        checkRateLimit cfg s now = (now, ⟨1, now⟩))
    ∧ (now - s.lastRequestTime ≤ cfg.window → cfg.requests ≤ s.requestCount →
        checkRateLimit cfg s now
          = (s.lastRequestTime + cfg.window,
             ⟨1, s.lastRequestTime + cfg.window⟩)
        ∧ (checkRateLimit cfg s now).1 - now
            = cfg.window - (now - s.lastRequestTime))
    ∧ (runRateLimiter cfg s ts).length = ts.length
    ∧ ∀ w, countWindow w (runRateLimiter cfg s ts) ≤ cfg.requests := by
  refine ⟨?_, ?_, runRateLimiter_length cfg ts s, ?_⟩
  · intro hA
    exact checkRateLimit_eq_elapsed cfg s now hreq hA
  · intro hB hfull
    have hne : ¬ cfg.window < now - s.lastRequestTime := by omega
    have heq := checkRateLimit_eq_full cfg s now hne hfull hnow
    refine ⟨heq, ?_⟩
    rw [heq]
    dsimp only
    omega
  · intro w
    have h := runRateLimiter_window_bound cfg hreq hwin ts s hcount hseq w
    refine Nat.le_trans h ?_
    split <;> omega

theorem checkRateLimit_governor_witness :
    ((10 : Nat) < 5 - 0 →
        checkRateLimit ⟨2, 10⟩ ⟨2, 0⟩ 5 = (5, ⟨1, 5⟩))
    ∧ ((5 : Nat) - 0 ≤ 10 → (2 : Nat) ≤ 2 →
        checkRateLimit ⟨2, 10⟩ ⟨2, 0⟩ 5 = (0 + 10, ⟨1, 0 + 10⟩)
        ∧ (checkRateLimit ⟨2, 10⟩ ⟨2, 0⟩ 5).1 - 5 = 10 - (5 - 0))
    ∧ (runRateLimiter ⟨2, 10⟩ ⟨2, 0⟩ [5, 10]).length = ([5, 10] : List Nat).length
    ∧ ∀ w, countWindow w (runRateLimiter ⟨2, 10⟩ ⟨2, 0⟩ [5, 10]) ≤ 2 :=
  checkRateLimit_governor ⟨2, 10⟩ ⟨2, 0⟩ 5 [5, 10] (by decide) (by decide)
    (by decide) (by decide) (by decide)


/-! ## Retry loop -/

theorem httpErrorMessage_ne_cancelled (status : Nat) (statusText : String) :
    httpErrorMessage status statusText ≠ "Request cancelled" := by
  intro h
  have h2 := congrArg String.length h
  rw [httpErrorMessage] at h2
  rw [String.length_append, String.length_append, String.length_append] at h2
  have e1 : ("OpenWeather API error " : String).length = 22 := rfl
  have e2 : ((": " : String)).length = 2 := rfl
  have e3 : ("Request cancelled" : String).length = 17 := rfl
  rw [e1, e2, e3] at h2
  omega

theorem isCancellation_http (status : Nat) (statusText : String) :
    isCancellation (httpErrorMessage status statusText) = false := by
  unfold isCancellation
  exact beq_eq_false_iff_ne.mpr (httpErrorMessage_ne_cancelled status statusText)

/-- C3: the retry classifier of makeRequest is message.includes("4"), so
an HTTP 504 response, although 5xx-class, is raised after the first
attempt: with 3 configured attempts the loop performs exactly one
attempt and no backoff wait, contradicting the claim that a 5xx-class
failure is retried up to the attempt count. -/
theorem makeRequest_504_not_retried :
    ((500 : Nat) ≤ 504 ∧ (504 : Nat) < 600)
    ∧ makeRequest (α := Unit) (fun _ => .httpError 504 "Gateway Timeout")
        (fun _ => false) 3 1000
      = (.error "OpenWeather API error 504: Gateway Timeout", 1, []) :=
  ⟨by decide, rfl⟩

theorem makeRequestAux_abort_step (sched : Nat → FetchOutcome α)
    (aborted : Nat → Bool) (delay : Nat) (lastMsg : String) (a r1 : Nat)
    (hf : isFailure (sched a) = true) (hab : aborted a = true) :
    makeRequestAux sched aborted delay lastMsg a (r1 + 1)
      = (.error "Request cancelled", 1, []) := by
  cases hs : sched a with
  | success v => rw [hs] at hf; simp [isFailure] at hf
  | httpError st txt => simp [makeRequestAux, hs, hab]
  | netError m => simp [makeRequestAux, hs, hab]

theorem makeRequestAux_fail_step (sched : Nat → FetchOutcome α)
    (aborted : Nat → Bool) (delay : Nat) (lastMsg : String) (a r1 : Nat)
    (hf : isFailure (sched a) = true) (hab : aborted a = false)
    (h4 : msgHasFour (errorMessage (sched a)) = false) (hr1 : r1 ≠ 0) :
    makeRequestAux sched aborted delay lastMsg a (r1 + 1)
      = ((makeRequestAux sched aborted delay (errorMessage (sched a))
            (a + 1) r1).1,
         (makeRequestAux sched aborted delay (errorMessage (sched a))
            (a + 1) r1).2.1 + 1,
         delay * a
           :: (makeRequestAux sched aborted delay (errorMessage (sched a))
                (a + 1) r1).2.2) := by
  cases hs : sched a with
  | success v => rw [hs] at hf; simp [isFailure] at hf
  | httpError st txt =>
      rw [hs] at h4
      simp [makeRequestAux, hs, hab, h4, hr1]
  | netError m =>
      rw [hs] at h4
      simp [makeRequestAux, hs, hab, h4, hr1]

theorem makeRequestAux_cancelled (sched : Nat → FetchOutcome α)
    (aborted : Nat → Bool) (delay : Nat) :
    ∀ (j r a : Nat) (lastMsg : String), j < r →
      (∀ i, a ≤ i → i < a + j →
        isFailure (sched i) = true ∧ aborted i = false
          ∧ msgHasFour (errorMessage (sched i)) = false) →
      isFailure (sched (a + j)) = true → aborted (a + j) = true →
      makeRequestAux sched aborted delay lastMsg a r
        = (.error "Request cancelled", j + 1,
           (List.range j).map (fun i => delay * (a + i))) := by
  intro j
  induction j with
  | zero =>
      intro r a lastMsg hjr hbefore hfail habort
      obtain ⟨r1, rfl⟩ : ∃ r1, r = r1 + 1 := ⟨r - 1, by omega⟩
      rw [Nat.add_zero] at hfail habort
      rw [makeRequestAux_abort_step sched aborted delay lastMsg a r1 hfail habort]
      rfl
  | succ jj ih =>
      intro r a lastMsg hjr hbefore hfail habort
      obtain ⟨r1, rfl⟩ : ∃ r1, r = r1 + 1 := ⟨r - 1, by omega⟩
      obtain ⟨hf, hab, h4⟩ := hbefore a (Nat.le_refl a) (by omega)
      have hr1 : r1 ≠ 0 := by omega
      have hrec := ih r1 (a + 1) (errorMessage (sched a)) (by omega)
        (fun i h1 h2 => hbefore i (by omega) (by omega))
        (by rw [show a + 1 + jj = a + (jj + 1) by omega]; exact hfail)
        (by rw [show a + 1 + jj = a + (jj + 1) by omega]; exact habort)
      rw [makeRequestAux_fail_step sched aborted delay lastMsg a r1 hf hab h4 hr1,
        hrec]
      have hlist : (List.range (jj + 1)).map (fun i => delay * (a + i))
          = delay * a :: (List.range jj).map (fun i => delay * (a + 1 + i)) := by
        rw [List.range_succ_eq_map, List.map_cons, List.map_map]
        refine congrArg₂ _ (by simp) ?_
        refine List.map_congr_left (fun i _ => ?_)
        show delay * (a + (i + 1)) = delay * (a + 1 + i)
        exact congrArg (fun n => delay * n) (by omega)
      rw [hlist]

/-- C4: when the abort signal is observed cancelled at a failing attempt
k, makeRequest stops there (k attempts executed, no further retries) and
settles with the error message Request cancelled, which the consuming
hook classifies as a cancellation while every HTTP error message of the
client is classified as an ordinary error. -/
theorem makeRequest_cancellation {α : Type} (sched : Nat → FetchOutcome α)
    (aborted : Nat → Bool) (attempts delay k : Nat)
    (hk1 : 1 ≤ k) (hk2 : k ≤ attempts)
    (hbefore : ∀ i, 1 ≤ i → i < k →
      isFailure (sched i) = true ∧ aborted i = false
        ∧ msgHasFour (errorMessage (sched i)) = false)
    (hfail : isFailure (sched k) = true) (habort : aborted k = true) :
    makeRequest sched aborted attempts delay
      = (.error "Request cancelled", k,
         (List.range (k - 1)).map (fun i => delay * (1 + i)))
    ∧ isCancellation "Request cancelled" = true
    ∧ ∀ st txt, isCancellation (httpErrorMessage st txt) = false := by
  refine ⟨?_, rfl, isCancellation_http⟩
  unfold makeRequest
  have h := makeRequestAux_cancelled sched aborted delay (k - 1) attempts 1 ""
    (by omega) (fun i h1 h2 => hbefore i h1 (by omega))
    (by rw [show 1 + (k - 1) = k by omega]; exact hfail)
    (by rw [show 1 + (k - 1) = k by omega]; exact habort)
  rw [h, show k - 1 + 1 = k by omega]

theorem makeRequest_cancellation_witness :
    makeRequest (α := Unit) (fun _ => .netError "connection reset")
        (fun i => decide (2 ≤ i)) 3 1000
      = (.error "Request cancelled", 2,
         (List.range (2 - 1)).map (fun i => 1000 * (1 + i)))
    ∧ isCancellation "Request cancelled" = true
    ∧ ∀ st txt, isCancellation (httpErrorMessage st txt) = false :=
  makeRequest_cancellation (fun _ => .netError "connection reset")
    (fun i => decide (2 ≤ i)) 3 1000 2 (by decide) (by decide)
    (fun i h1 h2 => by
      have hi : i = 1 := by omega
      subst hi
      exact ⟨rfl, rfl, by decide⟩)
    rfl rfl

/-! ## Response transformation -/

/-- C8 counterexample: a response with rain present at zero and the same
response with rain absent transform to the same WeatherData, so a
present zero value and an absent value are not distinguishable in the
output for the precipitation field. -/
theorem transformCurrentWeather_zero_vs_absent :
    respRainZero.rain1h = some 0
    ∧ respNoRain.rain1h = none
    ∧ transformCurrentWeather respRainZero = transformCurrentWeather respNoRain :=
  ⟨rfl, rfl, rfl⟩

/-- C8 amended: each presence-guarded optional field (feelsLike,
windDirection, windGust, visibility scaled to km, cloudCover, sunrise,
sunset) is copied exactly when present in the source, preserving zero
values; icon is copied when present and nonempty; fields the transformer
never sets stay absent; and the derived precipitation field is included
only when the summed rain and snow amount is positive, so a present zero
amount is treated as absent. -/
theorem transformCurrentWeather_sparse (d : CurrentResponse) (w : WeatherInfo)
    (h : d.weather.head? = some w) :
    ∃ r, transformCurrentWeather d = .ok r
      ∧ r.feelsLike = d.main.feels_like
      ∧ r.windDirection = d.wind.deg
      ∧ r.windGust = d.wind.gust
      ∧ r.visibility = d.visibility.map (fun v => v / 1000)
      ∧ r.cloudCover = d.cloudsAll
      ∧ r.sunrise = d.sysSunrise
      ∧ r.sunset = d.sysSunset
      ∧ r.icon = (if w.icon = "" then none else some w.icon)
      ∧ r.uvIndex = none
      ∧ r.dewPoint = none
      ∧ (d.rain1h.getD 0 + d.snow1h.getD 0 ≤ 0 → r.precipitation = none)
      ∧ (0 < d.rain1h.getD 0 + d.snow1h.getD 0 →
          r.precipitation = some (d.rain1h.getD 0 + d.snow1h.getD 0)) := by
  unfold transformCurrentWeather
  rw [h]
  refine ⟨_, rfl, rfl, rfl, rfl, rfl, rfl, rfl, rfl, rfl, rfl, rfl, ?_, ?_⟩
  · intro hle
    exact if_neg (not_lt.mpr hle)
  · intro hpos
    exact if_pos hpos

theorem transformCurrentWeather_sparse_witness :
    ∃ r, transformCurrentWeather respRainZero = .ok r
      ∧ r.feelsLike = respRainZero.main.feels_like
      ∧ r.windDirection = respRainZero.wind.deg
      ∧ r.windGust = respRainZero.wind.gust
      ∧ r.visibility = respRainZero.visibility.map (fun v => v / 1000)
      ∧ r.cloudCover = respRainZero.cloudsAll
      ∧ r.sunrise = respRainZero.sysSunrise
      ∧ r.sunset = respRainZero.sysSunset
      ∧ r.icon = (if sampleWeatherInfo.icon = "" then none
          else some sampleWeatherInfo.icon)
      ∧ r.uvIndex = none
      ∧ r.dewPoint = none
      ∧ (respRainZero.rain1h.getD 0 + respRainZero.snow1h.getD 0 ≤ 0 →
          r.precipitation = none)
      ∧ (0 < respRainZero.rain1h.getD 0 + respRainZero.snow1h.getD 0 →
          r.precipitation = some (respRainZero.rain1h.getD 0
            + respRainZero.snow1h.getD 0)) :=
  transformCurrentWeather_sparse respRainZero sampleWeatherInfo rfl

end WeatherApp
